import Mathlib

/-!
Shallow embedding of the quant analyzer core of the Cerisier repository
(`backend/apps/quant/analyzers/`): the analyzer value types and base
contract (`types.py`, `base.py`), the multi-factor scorer (`scorer.py`),
the signal generator (`signal_generator.py`) and the data-window / guard
structure of the concrete analyzers (`technical.py`, `money_flow.py`,
`sentiment.py`, `experimental.py`, ...).

Python floats are modelled as exact rationals (`ℚ`); `round(x, 2)` is
modelled by `round2` (round to the nearest hundredth). Code that can
raise is modelled in `Except String`, the error carrying the exception
message.
-/

namespace Cerisier

/-- `Signal` enum from `types.py`. -/
inductive Signal where
  | BUY
  | SELL
  | HOLD
deriving DecidableEq, Repr

/-- `TradingStyle` enum from `types.py`. -/
inductive TradingStyle where
  | ULTRA_SHORT
  | SWING
  | MID_LONG
deriving DecidableEq, Repr

/-- `TradingStyle.value` (the string tag of the enum member). -/
def styleValue : TradingStyle → String
  | .ULTRA_SHORT => "ultra_short"
  | .SWING => "swing"
  | .MID_LONG => "mid_long"

/-- `AnalysisResult` dataclass from `types.py`. `details` (a Python dict
of extra data) is modelled as an association list of string key/value
pairs, which is all the claims inspect. -/
structure AnalysisResult where
  score : ℚ
  signal : Signal
  confidence : ℚ
  explanation : String
  details : List (String × String) := []
deriving DecidableEq, Repr

/-- `AnalysisResult.__post_init__` validation (`types.py` lines 27-31):
constructing an `AnalysisResult` raises `ValueError` unless
`0 <= score <= 100` and `0 <= confidence <= 1`. A raise is an
`Except.error` carrying the message. -/
def mkAnalysisResult (score : ℚ) (signal : Signal) (confidence : ℚ)
    (explanation : String) (details : List (String × String)) :
    Except String AnalysisResult :=
  if ¬(0 ≤ score ∧ score ≤ 100) then
    .error "Score must be 0-100"
  else if ¬(0 ≤ confidence ∧ confidence ≤ 1) then
    .error "Confidence must be 0-1"
  else
    .ok ⟨score, signal, confidence, explanation, details⟩

/-- `AnalyzerBase.safe_analyze` (`base.py` lines 27-39): run `analyze`;
a raised exception with message `m` is caught and replaced by the
neutral fallback result built through the validating constructor.
The result is `Except` so that "never raises" is expressible: a raise
escaping `safe_analyze` would be an `Except.error`. -/
def safeAnalyze (analyze : String → Except String AnalysisResult)
    (stockCode : String) : Except String AnalysisResult :=
  match analyze stockCode with
  | .ok r => .ok r
  | .error m =>
      mkAnalysisResult 50 .HOLD 0 ("Analysis failed: " ++ m) [("error", m)]

/-- Python `round(x, 2)`: round to the nearest multiple of `1/100`
(ties rounded up; Python rounds ties to even, which none of the claims
exercise). -/
def round2 (q : ℚ) : ℚ := ((⌊q * 100 + 1/2⌋ : ℤ) : ℚ) / 100

/-- Python `round(x, 4)` (used only for the `atr` detail). -/
def round4 (q : ℚ) : ℚ := ((⌊q * 10000 + 1/2⌋ : ℤ) : ℚ) / 10000

/-! ## MultiFactorScorer (`scorer.py`) -/

/-- `MultiFactorScorer.STYLE_WEIGHTS` (`scorer.py` lines 31-62), one
name/weight association list per trading style, in dict insertion
order. -/
def STYLE_WEIGHTS : TradingStyle → List (String × ℚ)
  | .ULTRA_SHORT =>
      [("technical", 40/100), ("money_flow", 25/100), ("chip", 15/100),
       ("sentiment", 10/100), ("game_theory", 5/100),
       ("behavior_finance", 5/100)]
  | .SWING =>
      [("technical", 25/100), ("fundamental", 10/100),
       ("money_flow", 15/100), ("chip", 15/100), ("sentiment", 10/100),
       ("sector_rotation", 10/100), ("behavior_finance", 5/100),
       ("ai", 10/100)]
  | .MID_LONG =>
      [("technical", 10/100), ("fundamental", 25/100),
       ("money_flow", 10/100), ("chip", 10/100), ("sentiment", 5/100),
       ("sector_rotation", 10/100), ("macro", 5/100),
       ("behavior_finance", 5/100), ("game_theory", 5/100),
       ("ai", 15/100)]

/-- Confidence-adjusted weight of one analyzer
(`scorer.py` line 118): `w * max(0.1, confidence)`. -/
def effectiveWeight (w confidence : ℚ) : ℚ := w * max (1/10) confidence

/-- The accumulation loop of `MultiFactorScorer.score`
(`scorer.py` lines 111-121): over the analyzers of the active style
(each paired with its weight), accumulate
`weighted_sum += score * effective_weight` and
`total_weight += effective_weight`. `results` assigns each analyzer
name its `AnalysisResult` (in the code, the output of
`safe_analyze`). Returns `(weighted_sum, total_weight)`. -/
def scoreLoop (style : TradingStyle) (results : String → AnalysisResult) :
    ℚ × ℚ :=
  (STYLE_WEIGHTS style).foldl
    (fun acc p =>
      let r := results p.1
      let ew := effectiveWeight p.2 r.confidence
      (acc.1 + r.score * ew, acc.2 + ew))
    (0, 0)

/-- Σ of the effective weights, as a closed-form sum (spec side of the
loop). -/
def totalWeightSum (style : TradingStyle)
    (results : String → AnalysisResult) : ℚ :=
  ((STYLE_WEIGHTS style).map
    (fun p => effectiveWeight p.2 (results p.1).confidence)).sum

/-- Σ of `score_i × effective_i`, as a closed-form sum. -/
def weightedScoreSum (style : TradingStyle)
    (results : String → AnalysisResult) : ℚ :=
  ((STYLE_WEIGHTS style).map
    (fun p => (results p.1).score *
      effectiveWeight p.2 (results p.1).confidence)).sum

/-- `final_score` of `MultiFactorScorer.score`
(`scorer.py` lines 123-124): divide the accumulated weighted sum by the
total effective weight when positive (neutral 50.0 otherwise), clamp to
[0, 100], round to 2 decimals. -/
def scoreFinal (style : TradingStyle) (results : String → AnalysisResult) :
    ℚ :=
  let acc := scoreLoop style results
  let fs := if acc.2 > 0 then acc.1 / acc.2 else 50
  round2 (max 0 (min 100 fs))

/-- Signal thresholding of `MultiFactorScorer.score`
(`scorer.py` lines 127-132). -/
def signalFromScore (finalScore : ℚ) : Signal :=
  if finalScore ≥ 70 then .BUY
  else if finalScore ≤ 30 then .SELL
  else .HOLD

/-! ## Concrete analyzer guards and lookback windows -/

/-- The below-minimum guard of `TechnicalAnalyzer.analyze`
(`technical.py` lines 55-61): with fewer than 30 fetched bars, return
the neutral insufficient-data result through the validating
constructor. The post-guard body (indicator pipeline) is abstracted as
the parameter `rest`; the theorems about the guard hold for every
`rest`, hence for the concrete body. -/
def technicalAnalyze {α : Type} (rest : List α → Except String AnalysisResult)
    (klines : List α) : Except String AnalysisResult :=
  if klines.length < 30 then
    mkAnalysisResult 50 .HOLD 0 "Insufficient data for technical analysis" []
  else rest klines

/-- The below-minimum guard of `MoneyFlowAnalyzer.analyze`
(`money_flow.py` lines 48-54): fewer than 5 fetched flow bars is
neutral; otherwise the body runs on the reversed (oldest-first) list. -/
def moneyFlowAnalyze {α : Type} (rest : List α → Except String AnalysisResult)
    (flows : List α) : Except String AnalysisResult :=
  if flows.length < 5 then
    mkAnalysisResult 50 .HOLD 0 "Insufficient money-flow data for analysis" []
  else rest flows.reverse

/-- The below-minimum guard of `SentimentAnalyzer.analyze`
(`sentiment.py` lines 54-60): fewer than 3 fetched articles is
neutral. -/
def sentimentAnalyze {α : Type} (rest : List α → Except String AnalysisResult)
    (articles : List α) : Except String AnalysisResult :=
  if articles.length < 3 then
    mkAnalysisResult 50 .HOLD 0
      "Insufficient news articles for sentiment analysis" []
  else rest articles

/-- The below-minimum guard of `FundamentalAnalyzer.analyze`
(`fundamental.py` lines 57-63): with no fetched report
(`if not reports`, i.e. fewer than the 1-report minimum) the result is
neutral. -/
def fundamentalAnalyze {α : Type}
    (rest : List α → Except String AnalysisResult) (reports : List α) :
    Except String AnalysisResult :=
  match reports with
  | [] => mkAnalysisResult 50 .HOLD 0 "No financial report data available" []
  | _ => rest reports

/-- The below-minimum guard of `ChipAnalyzer.analyze`
(`chip.py` lines 48-54): fewer than 5 fetched margin records is
neutral; otherwise the body runs on the reversed (oldest-first)
list. -/
def chipAnalyze {α : Type} (rest : List α → Except String AnalysisResult)
    (records : List α) : Except String AnalysisResult :=
  if records.length < 5 then
    mkAnalysisResult 50 .HOLD 0 "Insufficient margin data for chip analysis" []
  else rest records.reverse

/-- The below-minimum guards of `SectorRotationAnalyzer.analyze`
(`sector.py` lines 68-85), after the industry lookup: fewer than 3
peer stocks in the sector is neutral, and otherwise fewer than 3 peers
with computed returns (only peers with at least 10 days of data get
one, `sector.py` line 156) is neutral again. The earlier
stock-not-found / no-industry early returns (`sector.py` lines 42-59)
are separate error paths, not sample-count minimums, and also return
the same neutral triple. -/
def sectorAnalyze {α β : Type}
    (rest : List α → List β → Except String AnalysisResult)
    (sectorStocks : List α) (stockReturns : List β) :
    Except String AnalysisResult :=
  if sectorStocks.length < 3 then
    mkAnalysisResult 50 .HOLD 0
      "Insufficient stocks in sector for analysis" []
  else if stockReturns.length < 3 then
    mkAnalysisResult 50 .HOLD 0
      "Insufficient kline data in sector for analysis" []
  else rest sectorStocks stockReturns

/-- The below-minimum guard of `GameTheoryAnalyzer.analyze`
(`experimental.py` lines 37-43): fewer than 10 fetched bars is
neutral; otherwise the body runs on the reversed (oldest-first)
list. -/
def gameTheoryAnalyze {α : Type}
    (rest : List α → Except String AnalysisResult) (klines : List α) :
    Except String AnalysisResult :=
  if klines.length < 10 then
    mkAnalysisResult 50 .HOLD 0 "Insufficient data for game theory analysis" []
  else rest klines.reverse

/-- The below-minimum guard of `BehaviorFinanceAnalyzer.analyze`
(`experimental.py` lines 167-173): fewer than 10 fetched bars is
neutral; otherwise the body runs on the reversed (oldest-first)
list. -/
def behaviorFinanceAnalyze {α : Type}
    (rest : List α → Except String AnalysisResult) (klines : List α) :
    Except String AnalysisResult :=
  if klines.length < 10 then
    mkAnalysisResult 50 .HOLD 0
      "Insufficient data for behavior finance analysis" []
  else rest klines.reverse

/-- A daily price bar (`KlineData` row), restricted to the fields the
analyzers and the signal generator read. `date` is a day number. -/
structure Kline where
  date : ℕ
  high : ℚ
  low : ℚ
  close : ℚ
deriving DecidableEq, Repr

/-- The ORM fetch of `TechnicalAnalyzer.analyze`
(`technical.py` lines 51-53):
`filter(stock_id=...).order_by("date")[:lookback_days]` — sort the
stock's bars by date ASCENDING and keep the first `n`, i.e. the `n`
OLDEST bars. -/
def technicalFetch (n : ℕ) (allBars : List Kline) : List Kline :=
  (allBars.insertionSort (fun a b => a.date ≤ b.date)).take n

/-- The ORM fetch of `MoneyFlowAnalyzer.analyze` (`money_flow.py`
lines 43-46) and of the other time-series analyzers
(`chip.py`, `experimental.py`, `signal_generator.py`):
`order_by("-date")[:n]` — sort by date DESCENDING and keep the first
`n`, i.e. the `n` most recent records. Stated generically over the
record type and its date projection. -/
def mostRecentFetch {α : Type} (date : α → ℕ) (n : ℕ) (records : List α) :
    List α :=
  (records.insertionSort (fun a b => date b ≤ date a)).take n

/-! ## SignalGenerator (`signal_generator.py`) -/

/-- The fields of the `MultiFactorScorer.score` result dict that
`SignalGenerator.generate` reads. -/
structure ScorerResult where
  signal : Signal
  finalScore : ℚ
  confidence : ℚ
  style : TradingStyle
deriving DecidableEq, Repr

/-- `TradingSignal` dataclass (`signal_generator.py` lines 8-29).
`details` is modelled as a name/value association list of the numeric
entries the code stores. -/
structure TradingSignal where
  stockCode : String
  signal : Signal
  score : ℚ
  confidence : ℚ
  style : TradingStyle
  entryPrice : ℚ
  stopLoss : ℚ
  takeProfit : ℚ
  positionPct : ℚ
  riskRewardRatio : ℚ
  explanation : String
  details : List (String × ℚ) := []
deriving DecidableEq, Repr

/-- `SignalGenerator.STOP_LOSS_ATR_MULT`. -/
def STOP_LOSS_ATR_MULT : TradingStyle → ℚ
  | .ULTRA_SHORT => 3/2
  | .SWING => 5/2
  | .MID_LONG => 7/2

/-- `SignalGenerator.TARGET_RR`. -/
def TARGET_RR : TradingStyle → ℚ
  | .ULTRA_SHORT => 2
  | .SWING => 3
  | .MID_LONG => 4

/-- `SignalGenerator.MAX_POSITION_PCT`. -/
def MAX_POSITION_PCT : TradingStyle → ℚ
  | .ULTRA_SHORT => 10
  | .SWING => 15
  | .MID_LONG => 25

/-- The true ranges of a chronologically ordered (oldest-first) bar
list (`signal_generator.py` lines 176-181): for each consecutive pair,
`max(high-low, |high-prev_close|, |low-prev_close|)`. -/
def trueRanges : List Kline → List ℚ
  | a :: b :: rest =>
      max (b.high - b.low) (max |b.high - a.close| |b.low - a.close|) ::
        trueRanges (b :: rest)
  | _ => []

/-- Python slice `l[-p:]` for `p` the ATR period: the last `p`
elements (the whole list when `p = 0`). -/
def lastSlice {α : Type} (p : ℕ) (l : List α) : List α :=
  if p = 0 then l else l.drop (l.length - p)

/-- `SignalGenerator._calculate_atr` (`signal_generator.py` lines
164-185). `klines` is newest-first; with a single bar, fall back to its
high-low range; the `[]` branch is never reached from `generate`
(Python would raise there) and is mapped to 0. -/
def calculateAtr (atrPeriod : ℕ) (klines : List Kline) : ℚ :=
  if klines.length < 2 then
    match klines with
    | [] => 0
    | k :: _ => k.high - k.low
  else
    let trs := trueRanges klines.reverse
    let recent := lastSlice atrPeriod trs
    if recent.length = 0 then 0 else recent.sum / (recent.length : ℚ)

/-- Python `f"{q:.2f}"` on a rational (ties away from zero; the claims
never inspect a formatted number). -/
def fmtFixed2 (q : ℚ) : String :=
  let cents := (⌊|q| * 100 + 1/2⌋ : ℤ).toNat
  let frac := cents % 100
  (if q < 0 then "-" else "") ++ toString (cents / 100) ++ "." ++
    (if frac < 10 then "0" ++ toString frac else toString frac)

/-- Python `f"{q:.1f}"` on a rational. -/
def fmtFixed1 (q : ℚ) : String :=
  let tenths := (⌊|q| * 10 + 1/2⌋ : ℤ).toNat
  (if q < 0 then "-" else "") ++ toString (tenths / 10) ++ "." ++
    toString (tenths % 10)

/-- `SignalGenerator._build_explanation`
(`signal_generator.py` lines 187-204). -/
def buildSignalExplanation (signal : Signal) (style : TradingStyle)
    (entry sl tp positionPct rr : ℚ) : String :=
  match signal with
  | .BUY =>
      "BUY signal (" ++ styleValue style ++ "): Entry " ++
        fmtFixed2 entry ++ ", SL " ++ fmtFixed2 sl ++ ", TP " ++
        fmtFixed2 tp ++ ", Position " ++ fmtFixed1 positionPct ++
        "%, RR " ++ fmtFixed1 rr ++ ":1"
  | .SELL =>
      "SELL signal (" ++ styleValue style ++ "): Entry " ++
        fmtFixed2 entry ++ ", SL " ++ fmtFixed2 sl ++ ", TP " ++
        fmtFixed2 tp ++ ", Position " ++ fmtFixed1 positionPct ++
        "%, RR " ++ fmtFixed1 rr ++ ":1"
  | .HOLD =>
      "HOLD signal (" ++ styleValue style ++
        "): No trading action recommended"

/-- `SignalGenerator.generate` (`signal_generator.py` lines 66-162),
as a function of the fetched price bars (`klines`, newest-first; the
ORM fetch itself is `mostRecentFetch Kline.date (max (atrPeriod+1) 30)`
over the stock's bars). -/
def generate (atrPeriod : ℕ) (stockCode : String) (sr : ScorerResult)
    (klines : List Kline) : TradingSignal :=
  match klines with
  | [] =>
      { stockCode := stockCode
        signal := .HOLD
        score := sr.finalScore
        confidence := 0
        style := sr.style
        entryPrice := 0
        stopLoss := 0
        takeProfit := 0
        positionPct := 0
        riskRewardRatio := 0
        explanation := "No price data available for signal generation"
        details := [] }
  | k0 :: _ =>
      let currentPrice := k0.close
      let atr := calculateAtr atrPeriod klines
      let entryPrice := currentPrice
      let stopLossMult := STOP_LOSS_ATR_MULT sr.style
      let targetRr := TARGET_RR sr.style
      let stopLoss :=
        match sr.signal with
        | .BUY => entryPrice - atr * stopLossMult
        | .SELL => entryPrice + atr * stopLossMult
        | .HOLD => entryPrice - atr * stopLossMult
      let takeProfit :=
        match sr.signal with
        | .BUY => entryPrice + atr * stopLossMult * targetRr
        | .SELL => entryPrice - atr * stopLossMult * targetRr
        | .HOLD => entryPrice + atr * stopLossMult
      let maxPct := MAX_POSITION_PCT sr.style
      let scoreFactor := |sr.finalScore - 50| / 50
      let positionPct := round2 (maxPct * sr.confidence * scoreFactor)
      let slDistance := |entryPrice - stopLoss|
      let tpDistance := |takeProfit - entryPrice|
      let riskRewardRatio :=
        if slDistance > 0 then round2 (tpDistance / slDistance) else 0
      { stockCode := stockCode
        signal := sr.signal
        score := sr.finalScore
        confidence := sr.confidence
        style := sr.style
        entryPrice := round2 entryPrice
        stopLoss := round2 stopLoss
        takeProfit := round2 takeProfit
        positionPct := positionPct
        riskRewardRatio := riskRewardRatio
        explanation := buildSignalExplanation sr.signal sr.style
          (round2 entryPrice) (round2 stopLoss) (round2 takeProfit)
          positionPct riskRewardRatio
        details :=
          [("atr", round4 atr), ("current_price", currentPrice),
           ("stop_loss_atr_mult", stopLossMult),
           ("target_rr", targetRr)] }

/-! ## Per-analyzer component weight tables -/

/-- `TechnicalAnalyzer.WEIGHTS` (`technical.py` lines 24-31). -/
def technicalWEIGHTS : List (String × ℚ) :=
  [("ma", 20/100), ("macd", 20/100), ("kdj", 15/100), ("rsi", 15/100),
   ("boll", 15/100), ("volume", 15/100)]

/-- `FundamentalAnalyzer.WEIGHTS` (`fundamental.py` lines 40-45). -/
def fundamentalWEIGHTS : List (String × ℚ) :=
  [("valuation", 30/100), ("quality", 25/100), ("growth", 25/100),
   ("margins", 20/100)]

/-- `MoneyFlowAnalyzer.WEIGHTS` (`money_flow.py` lines 28-33). -/
def moneyFlowWEIGHTS : List (String × ℚ) :=
  [("main_net_trend", 30/100), ("big_order_ratio", 25/100),
   ("retail_flow", 25/100), ("flow_momentum", 20/100)]

/-- `ChipAnalyzer.WEIGHTS` (`chip.py` lines 28-33). -/
def chipWEIGHTS : List (String × ℚ) :=
  [("margin_trend", 35/100), ("short_pressure", 25/100),
   ("leverage_ratio", 20/100), ("balance_momentum", 20/100)]

/-- `SentimentAnalyzer.WEIGHTS` (`sentiment.py` lines 31-35). -/
def sentimentWEIGHTS : List (String × ℚ) :=
  [("avg_sentiment", 40/100), ("sentiment_trend", 30/100),
   ("volume_signal", 30/100)]

/-- `SectorRotationAnalyzer.WEIGHTS` (`sector.py` lines 27-31). -/
def sectorWEIGHTS : List (String × ℚ) :=
  [("sector_momentum", 40/100), ("sector_flow", 30/100),
   ("relative_strength", 30/100)]

/-- `GameTheoryAnalyzer.WEIGHTS` (`experimental.py` lines 23-26). -/
def gameTheoryWEIGHTS : List (String × ℚ) :=
  [("volume_price_divergence", 50/100), ("volume_trend", 50/100)]

/-- `BehaviorFinanceAnalyzer.WEIGHTS` (`experimental.py` lines
153-156). -/
def behaviorFinanceWEIGHTS : List (String × ℚ) :=
  [("overreaction", 50/100), ("anchoring", 50/100)]

/-- `MacroAnalyzer.WEIGHTS` (`experimental.py` line 286): the Macro
placeholder's component table is the EMPTY dict. -/
def macroWEIGHTS : List (String × ℚ) := []

/-- Sum of the weights of a table. -/
def weightTableSum (table : List (String × ℚ)) : ℚ :=
  (table.map Prod.snd).sum

/-- A concrete stock history of 121 daily bars, dated day 0 .. day
120, used to evaluate the lookback-window selection at an input with
more than `lookback_days = 120` bars. -/
def c9TestBars : List Kline :=
  (List.range 121).map fun i => ⟨i, 10, 9, 10⟩

end Cerisier

namespace Cerisier

/-- `round2` is monotone. -/
theorem round2_mono {a b : ℚ} (h : a ≤ b) : round2 a ≤ round2 b := by
  unfold round2
  have hf : (⌊a * 100 + 1/2⌋ : ℤ) ≤ ⌊b * 100 + 1/2⌋ :=
    Int.floor_le_floor (by linarith)
  have : ((⌊a * 100 + 1/2⌋ : ℤ) : ℚ) ≤ ((⌊b * 100 + 1/2⌋ : ℤ) : ℚ) := by
    exact_mod_cast hf
  linarith

/-- `round2` commutes with subtracting one hundredth. -/
theorem round2_sub_cent (x : ℚ) : round2 (x - 1/100) = round2 x - 1/100 := by
  unfold round2
  have h : (x - 1/100) * 100 + 1/2 = (x * 100 + 1/2) - ((1 : ℤ) : ℚ) := by
    push_cast; ring
  rw [h, Int.floor_sub_int]
  push_cast
  ring

/-- Values at least a cent apart stay strictly ordered after rounding
to two decimals. -/
theorem round2_lt_of_cent_le {x y : ℚ} (h : x + 1/100 ≤ y) :
    round2 x < round2 y := by
  have h1 : round2 x ≤ round2 (y - 1/100) := round2_mono (by linarith)
  have h2 : round2 (y - 1/100) = round2 y - 1/100 := round2_sub_cent y
  linarith

/-- C1: for every analyzer implementation and stock code,
`safe_analyze` never raises; a normal `analyze` result passes through
unchanged, and an exception with message `m` becomes exactly the
fallback result `(50, HOLD, 0)` whose explanation is
`"Analysis failed: <m>"` (hence contains `"failed"`) and whose
`details.error` is `m`. -/
theorem safeAnalyze_spec
    (analyze : String → Except String AnalysisResult) (stockCode : String) :
    (∃ r, safeAnalyze analyze stockCode = .ok r)
    ∧ (∀ r, analyze stockCode = .ok r →
        safeAnalyze analyze stockCode = .ok r)
    ∧ (∀ m, analyze stockCode = .error m →
        safeAnalyze analyze stockCode =
          .ok { score := 50, signal := .HOLD, confidence := 0,
                explanation := "Analysis failed: " ++ m,
                details := [("error", m)] }
        ∧ ∃ before after,
            ("Analysis failed: " ++ m : String) =
              before ++ "failed" ++ after) := by
  have hfb : ∀ m : String,
      mkAnalysisResult 50 .HOLD 0 ("Analysis failed: " ++ m) [("error", m)] =
        .ok { score := 50, signal := .HOLD, confidence := 0,
              explanation := "Analysis failed: " ++ m,
              details := [("error", m)] } := by
    intro m
    norm_num [mkAnalysisResult]
  have hsub : ∀ m : String, ∃ before after,
      ("Analysis failed: " ++ m : String) = before ++ "failed" ++ after := by
    intro m
    refine ⟨"Analysis ", ": " ++ m, ?_⟩
    have hcat : ("Analysis failed: " : String) =
        ("Analysis " ++ "failed") ++ ": " := by decide
    rw [hcat, String.append_assoc, String.append_assoc]
  refine ⟨?_, ?_, ?_⟩
  · cases h : analyze stockCode with
    | ok r => exact ⟨r, by simp [safeAnalyze, h]⟩
    | error m =>
        refine ⟨{ score := 50, signal := .HOLD, confidence := 0,
                  explanation := "Analysis failed: " ++ m,
                  details := [("error", m)] }, ?_⟩
        simp only [safeAnalyze, h]
        exact hfb m
  · intro r h
    simp [safeAnalyze, h]
  · intro m h
    refine ⟨?_, hsub m⟩
    simp only [safeAnalyze, h]
    exact hfb m

/-- Witness for C1 at a concrete throwing analyzer. -/
theorem safeAnalyze_spec_witness :
    safeAnalyze (fun _ => .error "boom") "000001" =
      .ok { score := 50, signal := .HOLD, confidence := 0,
            explanation := "Analysis failed: boom",
            details := [("error", "boom")] } := by
  have h := (safeAnalyze_spec (fun _ => .error "boom") "000001").2.2 "boom" rfl
  rw [h.1]
  have hm : ("Analysis failed: " ++ "boom" : String) =
      "Analysis failed: boom" := by decide
  rw [hm]

/-- C2: constructing an `AnalysisResult` raises exactly when `score`
is outside [0, 100] or `confidence` is outside [0, 1]; every
successfully constructed value keeps the given fields and satisfies
both range invariants. -/
theorem mkAnalysisResult_range_spec (score : ℚ) (signal : Signal)
    (confidence : ℚ) (explanation : String)
    (details : List (String × String)) :
    ((∃ r, mkAnalysisResult score signal confidence explanation details =
        .ok r) ↔
      (0 ≤ score ∧ score ≤ 100 ∧ 0 ≤ confidence ∧ confidence ≤ 1))
    ∧ (∀ r,
        mkAnalysisResult score signal confidence explanation details =
          .ok r →
        r = ⟨score, signal, confidence, explanation, details⟩ ∧
          0 ≤ r.score ∧ r.score ≤ 100 ∧
          0 ≤ r.confidence ∧ r.confidence ≤ 1) := by
  unfold mkAnalysisResult
  split_ifs with hA hB
  case pos =>
    constructor
    · exact ⟨fun _ => ⟨hA.1, hA.2, hB.1, hB.2⟩, fun _ => ⟨_, rfl⟩⟩
    · intro r hr
      have hr' : (⟨score, signal, confidence, explanation, details⟩ :
          AnalysisResult) = r := by
        injection hr
      cases hr'
      exact ⟨rfl, hA.1, hA.2, hB.1, hB.2⟩
  all_goals
    constructor
    · constructor
      · rintro ⟨r, hr⟩
        simp at hr
      · intro hrange
        tauto
    · intro r hr
      simp at hr

/-- Witness for C2 at a concrete in-range construction. -/
theorem mkAnalysisResult_range_spec_witness :
    (⟨50, .HOLD, 1/2, "x", []⟩ : AnalysisResult) =
      ⟨50, .HOLD, 1/2, "x", []⟩ ∧
    0 ≤ (⟨50, .HOLD, 1/2, "x", []⟩ : AnalysisResult).score ∧
    (⟨50, .HOLD, 1/2, "x", []⟩ : AnalysisResult).score ≤ 100 ∧
    0 ≤ (⟨50, .HOLD, 1/2, "x", []⟩ : AnalysisResult).confidence ∧
    (⟨50, .HOLD, 1/2, "x", []⟩ : AnalysisResult).confidence ≤ 1 :=
  (mkAnalysisResult_range_spec 50 .HOLD (1/2) "x" []).2
    ⟨50, .HOLD, 1/2, "x", []⟩ (by norm_num [mkAnalysisResult])

/-- C4: every analyzer with a documented minimum sample count
(Technical: 30 bars, MoneyFlow: 5 bars, Sentiment: 3 articles,
Fundamental: 1 report, Chip: 5 margin records, SectorRotation: 3
peers with returns, GameTheory: 10 bars, BehaviorFinance: 10 bars),
given fewer fetched records than its minimum, returns exactly the
neutral `(50, HOLD, 0)` result without raising, for any post-guard
analysis body. -/
theorem analyzer_min_samples_neutral {α β γ δ ε ζ η θ ι : Type}
    (restT : List α → Except String AnalysisResult)
    (restM : List β → Except String AnalysisResult)
    (restS : List γ → Except String AnalysisResult)
    (restF : List δ → Except String AnalysisResult)
    (restC : List ε → Except String AnalysisResult)
    (restSec : List ζ → List η → Except String AnalysisResult)
    (restG : List θ → Except String AnalysisResult)
    (restB : List ι → Except String AnalysisResult)
    (klines : List α) (flows : List β) (articles : List γ)
    (reports : List δ) (records : List ε)
    (sectorStocks : List ζ) (stockReturns : List η)
    (klinesG : List θ) (klinesB : List ι) :
    (klines.length < 30 → technicalAnalyze restT klines =
      .ok ⟨50, .HOLD, 0, "Insufficient data for technical analysis", []⟩)
    ∧ (flows.length < 5 → moneyFlowAnalyze restM flows =
      .ok ⟨50, .HOLD, 0, "Insufficient money-flow data for analysis", []⟩)
    ∧ (articles.length < 3 → sentimentAnalyze restS articles =
      .ok ⟨50, .HOLD, 0,
        "Insufficient news articles for sentiment analysis", []⟩)
    ∧ (reports.length < 1 → fundamentalAnalyze restF reports =
      .ok ⟨50, .HOLD, 0, "No financial report data available", []⟩)
    ∧ (records.length < 5 → chipAnalyze restC records =
      .ok ⟨50, .HOLD, 0, "Insufficient margin data for chip analysis", []⟩)
    ∧ (sectorStocks.length < 3 ∨ stockReturns.length < 3 →
      ∃ msg, sectorAnalyze restSec sectorStocks stockReturns =
        .ok ⟨50, .HOLD, 0, msg, []⟩)
    ∧ (klinesG.length < 10 → gameTheoryAnalyze restG klinesG =
      .ok ⟨50, .HOLD, 0, "Insufficient data for game theory analysis", []⟩)
    ∧ (klinesB.length < 10 → behaviorFinanceAnalyze restB klinesB =
      .ok ⟨50, .HOLD, 0,
        "Insufficient data for behavior finance analysis", []⟩) := by
  refine ⟨fun h => ?_, fun h => ?_, fun h => ?_, fun h => ?_, fun h => ?_,
    fun h => ?_, fun h => ?_, fun h => ?_⟩
  · rw [technicalAnalyze, if_pos h]
    norm_num [mkAnalysisResult]
  · rw [moneyFlowAnalyze, if_pos h]
    norm_num [mkAnalysisResult]
  · rw [sentimentAnalyze, if_pos h]
    norm_num [mkAnalysisResult]
  · have hnil : reports = [] := List.length_eq_zero.mp (Nat.lt_one_iff.mp h)
    subst hnil
    rw [fundamentalAnalyze]
    norm_num [mkAnalysisResult]
  · rw [chipAnalyze, if_pos h]
    norm_num [mkAnalysisResult]
  · rcases h with h | h
    · refine ⟨"Insufficient stocks in sector for analysis", ?_⟩
      rw [sectorAnalyze, if_pos h]
      norm_num [mkAnalysisResult]
    · by_cases hst : sectorStocks.length < 3
      · refine ⟨"Insufficient stocks in sector for analysis", ?_⟩
        rw [sectorAnalyze, if_pos hst]
        norm_num [mkAnalysisResult]
      · refine ⟨"Insufficient kline data in sector for analysis", ?_⟩
        rw [sectorAnalyze, if_neg hst, if_pos h]
        norm_num [mkAnalysisResult]
  · rw [gameTheoryAnalyze, if_pos h]
    norm_num [mkAnalysisResult]
  · rw [behaviorFinanceAnalyze, if_pos h]
    norm_num [mkAnalysisResult]

/-- Witness for C4 on empty record lists for all eight analyzers. -/
theorem analyzer_min_samples_neutral_witness :
    technicalAnalyze (fun (_ : List Unit) => .error "t") [] =
      .ok ⟨50, .HOLD, 0, "Insufficient data for technical analysis", []⟩
    ∧ moneyFlowAnalyze (fun (_ : List Unit) => .error "m") [] =
      .ok ⟨50, .HOLD, 0, "Insufficient money-flow data for analysis", []⟩
    ∧ sentimentAnalyze (fun (_ : List Unit) => .error "s") [] =
      .ok ⟨50, .HOLD, 0,
        "Insufficient news articles for sentiment analysis", []⟩
    ∧ fundamentalAnalyze (fun (_ : List Unit) => .error "f") [] =
      .ok ⟨50, .HOLD, 0, "No financial report data available", []⟩
    ∧ chipAnalyze (fun (_ : List Unit) => .error "c") [] =
      .ok ⟨50, .HOLD, 0, "Insufficient margin data for chip analysis", []⟩
    ∧ (∃ msg, sectorAnalyze
        (fun (_ : List Unit) (_ : List Unit) => .error "sec") [] [] =
        .ok ⟨50, .HOLD, 0, msg, []⟩)
    ∧ gameTheoryAnalyze (fun (_ : List Unit) => .error "g") [] =
      .ok ⟨50, .HOLD, 0, "Insufficient data for game theory analysis", []⟩
    ∧ behaviorFinanceAnalyze (fun (_ : List Unit) => .error "b") [] =
      .ok ⟨50, .HOLD, 0,
        "Insufficient data for behavior finance analysis", []⟩ := by
  have h := analyzer_min_samples_neutral
    (fun (_ : List Unit) => .error "t") (fun (_ : List Unit) => .error "m")
    (fun (_ : List Unit) => .error "s") (fun (_ : List Unit) => .error "f")
    (fun (_ : List Unit) => .error "c")
    (fun (_ : List Unit) (_ : List Unit) => .error "sec")
    (fun (_ : List Unit) => .error "g") (fun (_ : List Unit) => .error "b")
    [] [] [] [] [] [] [] [] []
  exact ⟨h.1 (by decide), h.2.1 (by decide), h.2.2.1 (by decide),
    h.2.2.2.1 (by decide), h.2.2.2.2.1 (by decide),
    h.2.2.2.2.2.1 (Or.inl (by decide)), h.2.2.2.2.2.2.1 (by decide),
    h.2.2.2.2.2.2.2 (by decide)⟩

/-- The effective weight of a positively weighted analyzer is
positive, whatever its confidence. -/
theorem effectiveWeight_pos {w : ℚ} (c : ℚ) (hw : 0 < w) :
    0 < effectiveWeight w c :=
  mul_pos hw (lt_of_lt_of_le (by norm_num) (le_max_left (1/10) c))

/-- Every style's weight table is nonempty with positive weights. -/
theorem styleWeights_pos (style : TradingStyle) :
    STYLE_WEIGHTS style ≠ [] ∧ ∀ p ∈ STYLE_WEIGHTS style, 0 < p.2 := by
  cases style <;>
    refine ⟨by simp [STYLE_WEIGHTS], fun p hp => ?_⟩ <;>
    simp only [STYLE_WEIGHTS] at hp <;>
    fin_cases hp <;> norm_num

/-- The accumulation loop of `MultiFactorScorer.score` computes the
closed-form sums. -/
theorem scoreLoop_eq_sums (style : TradingStyle)
    (results : String → AnalysisResult) :
    scoreLoop style results =
      (weightedScoreSum style results, totalWeightSum style results) := by
  cases style <;>
    simp only [scoreLoop, STYLE_WEIGHTS, weightedScoreSum, totalWeightSum,
      List.foldl, List.map, List.sum_cons, List.sum_nil, Prod.mk.injEq] <;>
    constructor <;> ring

/-- The total effective weight is strictly positive for every style
and every assignment of results. -/
theorem totalWeightSum_pos (style : TradingStyle)
    (results : String → AnalysisResult) :
    0 < totalWeightSum style results := by
  apply List.sum_pos
  · intro x hx
    obtain ⟨p, hp, rfl⟩ := List.mem_map.mp hx
    exact effectiveWeight_pos _ ((styleWeights_pos style).2 p hp)
  · simpa using (styleWeights_pos style).1

/-- Each style table's nominal weights sum to exactly 1. -/
theorem styleWeights_sum_one (style : TradingStyle) :
    ((STYLE_WEIGHTS style).map Prod.snd).sum = 1 := by
  cases style <;>
    norm_num [STYLE_WEIGHTS, List.map_cons, List.map_nil, List.sum_cons,
      List.sum_nil]

/-- C10: the total effective weight accumulated by
`MultiFactorScorer.score` is strictly positive for every style and
every result assignment — each analyzer contributes at least 0.1 of
its nominal weight and every style table is nonempty with positive
weights — so the final score is always the confidence-weighted
quotient and the 50.0 division-by-zero default is unreachable. -/
theorem score_total_weight_pos (style : TradingStyle)
    (results : String → AnalysisResult) :
    0 < (scoreLoop style results).2
    ∧ STYLE_WEIGHTS style ≠ []
    ∧ (STYLE_WEIGHTS style).Forall
        (fun p => p.2 * (1/10) ≤ effectiveWeight p.2 (results p.1).confidence)
    ∧ scoreFinal style results =
        round2 (max 0 (min 100
          ((scoreLoop style results).1 / (scoreLoop style results).2))) := by
  have hpos : 0 < (scoreLoop style results).2 := by
    rw [scoreLoop_eq_sums]
    exact totalWeightSum_pos style results
  refine ⟨hpos, (styleWeights_pos style).1, ?_, ?_⟩
  · rw [List.forall_iff_forall_mem]
    intro p hp
    have hw : 0 < p.2 := (styleWeights_pos style).2 p hp
    calc p.2 * (1/10) ≤ p.2 * max (1/10) (results p.1).confidence :=
          mul_le_mul_of_nonneg_left (le_max_left _ _) hw.le
      _ = effectiveWeight p.2 (results p.1).confidence := rfl
  · rw [scoreFinal, if_pos hpos]

/-- C3: `MultiFactorScorer.score` computes the final score as the
rounded, clamped, effective-weight-normalized sum (defaulting to 50
only when the total effective weight vanishes), and when every
included analyzer reports confidence 1.0 the final score collapses to
`round2` of the plain nominal-weight sum `Σ score_i * weight_i`. -/
theorem score_final_formula (style : TradingStyle)
    (results : String → AnalysisResult) :
    scoreFinal style results =
      round2 (max 0 (min 100
        (if totalWeightSum style results = 0 then 50
         else weightedScoreSum style results / totalWeightSum style results)))
    ∧ ((∀ p ∈ STYLE_WEIGHTS style,
          (results p.1).confidence = 1 ∧
          0 ≤ (results p.1).score ∧ (results p.1).score ≤ 100) →
        scoreFinal style results =
          round2 (((STYLE_WEIGHTS style).map
            (fun p => (results p.1).score * p.2)).sum)) := by
  have htw : 0 < totalWeightSum style results := totalWeightSum_pos style results
  have hmain : scoreFinal style results =
      round2 (max 0 (min 100
        (weightedScoreSum style results / totalWeightSum style results))) := by
    rw [scoreFinal, scoreLoop_eq_sums]
    simp only
    rw [if_pos htw]
  constructor
  · rw [hmain, if_neg (ne_of_gt htw)]
  · intro h
    have heff : ∀ p ∈ STYLE_WEIGHTS style,
        effectiveWeight p.2 (results p.1).confidence = p.2 := by
      intro p hp
      rw [effectiveWeight, (h p hp).1, max_eq_right (by norm_num)]
      ring
    have htw1 : totalWeightSum style results = 1 := by
      rw [totalWeightSum, List.map_congr_left heff, styleWeights_sum_one]
    have hws : weightedScoreSum style results =
        ((STYLE_WEIGHTS style).map
          (fun p => (results p.1).score * p.2)).sum := by
      rw [weightedScoreSum]
      congr 1
      apply List.map_congr_left
      intro p hp
      rw [heff p hp]
    have hlo : 0 ≤ ((STYLE_WEIGHTS style).map
        (fun p => (results p.1).score * p.2)).sum := by
      apply List.sum_nonneg
      intro x hx
      obtain ⟨p, hp, rfl⟩ := List.mem_map.mp hx
      exact mul_nonneg (h p hp).2.1 ((styleWeights_pos style).2 p hp).le
    have hhi : ((STYLE_WEIGHTS style).map
        (fun p => (results p.1).score * p.2)).sum ≤ 100 := by
      have hle : ((STYLE_WEIGHTS style).map
          (fun p => (results p.1).score * p.2)).sum ≤
          ((STYLE_WEIGHTS style).map (fun p => 100 * p.2)).sum := by
        apply List.sum_le_sum
        intro p hp
        exact mul_le_mul_of_nonneg_right (h p hp).2.2
          ((styleWeights_pos style).2 p hp).le
      have h100 : ((STYLE_WEIGHTS style).map (fun p => 100 * p.2)).sum =
          100 := by
        have := List.sum_map_mul_left (STYLE_WEIGHTS style) Prod.snd (100 : ℚ)
        rw [this, styleWeights_sum_one]
        norm_num
      linarith
    rw [hmain, htw1, hws, div_one, min_eq_right hhi, max_eq_right hlo]

/-- Witness for C3 with all confidences 1.0: the ULTRA_SHORT score of
uniform 60-score results is exactly 60. -/
theorem score_final_formula_witness :
    scoreFinal .ULTRA_SHORT (fun _ => ⟨60, .HOLD, 1, "", []⟩) = 60 := by
  have h := (score_final_formula .ULTRA_SHORT
    (fun _ => ⟨60, .HOLD, 1, "", []⟩)).2 (by decide)
  rw [h]
  norm_num [STYLE_WEIGHTS, round2]

/-- C7 counterexample: the Macro placeholder's component weight table
is empty, so it sums to 0, not to 1.0 within 1e-9. -/
theorem macro_weight_table_sums_to_zero :
    weightTableSum macroWEIGHTS = 0 ∧
    ¬(|weightTableSum macroWEIGHTS - 1| ≤ 1/1000000000) := by
  constructor <;> norm_num [weightTableSum, macroWEIGHTS]

/-- C7 amended: every per-style analyzer weight table and every
nonempty per-analyzer component weight table (the eight concrete
analyzers that define one) sums to 1.0 within 1e-9; the Macro
placeholder's table is empty and sums to 0 (and the AI analyzer
defines no component table at all). -/
theorem weight_tables_sum_to_one :
    (∀ style, |weightTableSum (STYLE_WEIGHTS style) - 1| ≤ 1/1000000000)
    ∧ |weightTableSum technicalWEIGHTS - 1| ≤ 1/1000000000
    ∧ |weightTableSum fundamentalWEIGHTS - 1| ≤ 1/1000000000
    ∧ |weightTableSum moneyFlowWEIGHTS - 1| ≤ 1/1000000000
    ∧ |weightTableSum chipWEIGHTS - 1| ≤ 1/1000000000
    ∧ |weightTableSum sentimentWEIGHTS - 1| ≤ 1/1000000000
    ∧ |weightTableSum sectorWEIGHTS - 1| ≤ 1/1000000000
    ∧ |weightTableSum gameTheoryWEIGHTS - 1| ≤ 1/1000000000
    ∧ |weightTableSum behaviorFinanceWEIGHTS - 1| ≤ 1/1000000000
    ∧ weightTableSum macroWEIGHTS = 0 := by
  refine ⟨fun style => ?_, ?_, ?_, ?_, ?_, ?_, ?_, ?_, ?_, ?_⟩
  · cases style <;> norm_num [weightTableSum, STYLE_WEIGHTS]
  all_goals
    norm_num [weightTableSum, technicalWEIGHTS, fundamentalWEIGHTS,
      moneyFlowWEIGHTS, chipWEIGHTS, sentimentWEIGHTS, sectorWEIGHTS,
      gameTheoryWEIGHTS, behaviorFinanceWEIGHTS, macroWEIGHTS]

/-- C6 counterexample: with zero price bars, the explanation of the
degenerate signal is not the string "No price data available" claimed;
the code appends " for signal generation". -/
theorem generate_no_data_explanation_counterexample :
    (generate 14 "000001" ⟨.HOLD, 50, 0, .SWING⟩ []).explanation ≠
      "No price data available"
    ∧ (generate 14 "000001" ⟨.HOLD, 50, 0, .SWING⟩ []).explanation =
      "No price data available for signal generation" := by
  exact ⟨by decide, rfl⟩

/-- C6 amended: for every stock code and scorer result,
`SignalGenerator.generate` with zero price bars returns the degenerate
signal: HOLD, all prices 0.0, position 0.0, confidence 0.0,
risk/reward 0.0, and the explanation
"No price data available for signal generation". -/
theorem generate_no_data_degenerate (atrPeriod : ℕ) (stockCode : String)
    (sr : ScorerResult) :
    generate atrPeriod stockCode sr [] =
      { stockCode := stockCode, signal := .HOLD, score := sr.finalScore,
        confidence := 0, style := sr.style, entryPrice := 0, stopLoss := 0,
        takeProfit := 0, positionPct := 0, riskRewardRatio := 0,
        explanation := "No price data available for signal generation",
        details := [] } := rfl

/-- C8: with at least one price bar and a scorer result whose
confidence lies in [0, 1] and score in [0, 100], the position size is
`round2(MAX_POSITION_PCT[style] * confidence * |score - 50| / 50)`,
is monotone non-decreasing in confidence and in the score's distance
from 50, and never exceeds the style's cap. -/
theorem generate_position_pct_spec (atrPeriod : ℕ) (stockCode : String)
    (sr : ScorerResult) (klines : List Kline) (hne : klines ≠ [])
    (hc0 : 0 ≤ sr.confidence) (hc1 : sr.confidence ≤ 1)
    (hs0 : 0 ≤ sr.finalScore) (hs1 : sr.finalScore ≤ 100) :
    (generate atrPeriod stockCode sr klines).positionPct =
      round2 (MAX_POSITION_PCT sr.style * sr.confidence *
        (|sr.finalScore - 50| / 50))
    ∧ (∀ sr' : ScorerResult, sr'.style = sr.style →
        sr'.finalScore = sr.finalScore → sr.confidence ≤ sr'.confidence →
        (generate atrPeriod stockCode sr klines).positionPct ≤
          (generate atrPeriod stockCode sr' klines).positionPct)
    ∧ (∀ sr' : ScorerResult, sr'.style = sr.style →
        sr'.confidence = sr.confidence →
        |sr.finalScore - 50| ≤ |sr'.finalScore - 50| →
        (generate atrPeriod stockCode sr klines).positionPct ≤
          (generate atrPeriod stockCode sr' klines).positionPct)
    ∧ (generate atrPeriod stockCode sr klines).positionPct ≤
        MAX_POSITION_PCT sr.style := by
  obtain ⟨k0, rest, rfl⟩ := List.exists_cons_of_ne_nil hne
  have hpp : ∀ sr'' : ScorerResult,
      (generate atrPeriod stockCode sr'' (k0 :: rest)).positionPct =
        round2 (MAX_POSITION_PCT sr''.style * sr''.confidence *
          (|sr''.finalScore - 50| / 50)) := fun sr'' => rfl
  have hm : 0 ≤ MAX_POSITION_PCT sr.style := by
    cases sr.style <;> norm_num [MAX_POSITION_PCT]
  refine ⟨hpp sr, ?_, ?_, ?_⟩
  · intro sr' hst hsc hcle
    rw [hpp sr, hpp sr', hst, hsc]
    apply round2_mono
    have hf : 0 ≤ |sr.finalScore - 50| / 50 := by positivity
    exact mul_le_mul_of_nonneg_right
      (mul_le_mul_of_nonneg_left hcle hm) hf
  · intro sr' hst hcc hfle
    rw [hpp sr, hpp sr', hst, hcc]
    apply round2_mono
    have h1 : 0 ≤ MAX_POSITION_PCT sr.style * sr.confidence :=
      mul_nonneg hm hc0
    have hdiv : |sr.finalScore - 50| / 50 ≤ |sr'.finalScore - 50| / 50 :=
      (div_le_div_iff_of_pos_right (by norm_num)).mpr hfle
    exact mul_le_mul_of_nonneg_left hdiv h1
  · rw [hpp sr]
    have hf1 : |sr.finalScore - 50| / 50 ≤ 1 := by
      rw [div_le_one (by norm_num)]
      exact abs_le.mpr ⟨by linarith, by linarith⟩
    have hcnn : 0 ≤ MAX_POSITION_PCT sr.style * sr.confidence :=
      mul_nonneg hm hc0
    have hprod : MAX_POSITION_PCT sr.style * sr.confidence *
        (|sr.finalScore - 50| / 50) ≤ MAX_POSITION_PCT sr.style := by
      calc MAX_POSITION_PCT sr.style * sr.confidence *
            (|sr.finalScore - 50| / 50)
          ≤ MAX_POSITION_PCT sr.style * sr.confidence * 1 :=
            mul_le_mul_of_nonneg_left hf1 hcnn
        _ = MAX_POSITION_PCT sr.style * sr.confidence := mul_one _
        _ ≤ MAX_POSITION_PCT sr.style * 1 :=
            mul_le_mul_of_nonneg_left hc1 hm
        _ = MAX_POSITION_PCT sr.style := mul_one _
    calc round2 (MAX_POSITION_PCT sr.style * sr.confidence *
          (|sr.finalScore - 50| / 50))
        ≤ round2 (MAX_POSITION_PCT sr.style) := round2_mono hprod
      _ = MAX_POSITION_PCT sr.style := by
          cases sr.style <;> norm_num [MAX_POSITION_PCT, round2]

/-- Witness for C8 at a concrete SWING BUY result. -/
theorem generate_position_pct_spec_witness :
    (generate 14 "000001" ⟨.BUY, 80, 9/10, .SWING⟩
      [⟨1, 11, 9, 10⟩]).positionPct =
      round2 (MAX_POSITION_PCT .SWING * (9/10) * (|(80:ℚ) - 50| / 50))
    ∧ (generate 14 "000001" ⟨.BUY, 80, 9/10, .SWING⟩
        [⟨1, 11, 9, 10⟩]).positionPct ≤ MAX_POSITION_PCT .SWING := by
  have h := generate_position_pct_spec 14 "000001" ⟨.BUY, 80, 9/10, .SWING⟩
    [⟨1, 11, 9, 10⟩] (by simp) (by norm_num) (by norm_num) (by norm_num)
    (by norm_num)
  exact ⟨h.1, h.2.2.2⟩

/-- C5 counterexample: with a single bar whose high equals its low the
ATR is 0, so for a BUY result the stop-loss coincides with the entry
price and the strict ordering `stop_loss < entry_price` fails. -/
theorem generate_price_ordering_counterexample :
    (generate 14 "000001" ⟨.BUY, 80, 9/10, .SWING⟩
      [⟨1, 10, 10, 10⟩]).signal = .BUY
    ∧ (generate 14 "000001" ⟨.BUY, 80, 9/10, .SWING⟩
        [⟨1, 10, 10, 10⟩]).stopLoss =
      (generate 14 "000001" ⟨.BUY, 80, 9/10, .SWING⟩
        [⟨1, 10, 10, 10⟩]).entryPrice
    ∧ ¬((generate 14 "000001" ⟨.BUY, 80, 9/10, .SWING⟩
        [⟨1, 10, 10, 10⟩]).stopLoss <
      (generate 14 "000001" ⟨.BUY, 80, 9/10, .SWING⟩
        [⟨1, 10, 10, 10⟩]).entryPrice) := by
  have heq : (generate 14 "000001" ⟨.BUY, 80, 9/10, .SWING⟩
      [⟨1, 10, 10, 10⟩]).stopLoss =
      (generate 14 "000001" ⟨.BUY, 80, 9/10, .SWING⟩
        [⟨1, 10, 10, 10⟩]).entryPrice := by
    show round2 (10 - calculateAtr 14 [⟨1, 10, 10, 10⟩] *
      STOP_LOSS_ATR_MULT .SWING) = round2 10
    norm_num [calculateAtr, STOP_LOSS_ATR_MULT]
  exact ⟨rfl, heq, by rw [heq]; exact lt_irrefl _⟩

/-- C5 amended: with at least one price bar, whenever the computed ATR
is at least 0.01 (so that the ATR-scaled offsets survive rounding the
price levels to 2 decimals) the trade levels are strictly ordered:
BUY has stop < entry < target, SELL has target < entry < stop, and
HOLD has stop < entry < target with risk/reward exactly 1; with ATR 0
the levels collapse onto the entry price. -/
theorem generate_price_ordering (atrPeriod : ℕ) (stockCode : String)
    (sr : ScorerResult) (klines : List Kline) (hne : klines ≠ [])
    (hatr : 1/100 ≤ calculateAtr atrPeriod klines) :
    ((generate atrPeriod stockCode sr klines).signal = .BUY →
      (generate atrPeriod stockCode sr klines).stopLoss <
        (generate atrPeriod stockCode sr klines).entryPrice ∧
      (generate atrPeriod stockCode sr klines).entryPrice <
        (generate atrPeriod stockCode sr klines).takeProfit)
    ∧ ((generate atrPeriod stockCode sr klines).signal = .SELL →
      (generate atrPeriod stockCode sr klines).takeProfit <
        (generate atrPeriod stockCode sr klines).entryPrice ∧
      (generate atrPeriod stockCode sr klines).entryPrice <
        (generate atrPeriod stockCode sr klines).stopLoss)
    ∧ ((generate atrPeriod stockCode sr klines).signal = .HOLD →
      (generate atrPeriod stockCode sr klines).stopLoss <
        (generate atrPeriod stockCode sr klines).entryPrice ∧
      (generate atrPeriod stockCode sr klines).entryPrice <
        (generate atrPeriod stockCode sr klines).takeProfit ∧
      (generate atrPeriod stockCode sr klines).riskRewardRatio = 1) := by
  obtain ⟨k0, rest, rfl⟩ := List.exists_cons_of_ne_nil hne
  obtain ⟨sig, fs, conf, style⟩ := sr
  have hM : (3:ℚ)/2 ≤ STOP_LOSS_ATR_MULT style := by
    cases style <;> norm_num [STOP_LOSS_ATR_MULT]
  have hR : (2:ℚ) ≤ TARGET_RR style := by
    cases style <;> norm_num [TARGET_RR]
  have hatr0 : (0:ℚ) ≤ calculateAtr atrPeriod (k0 :: rest) := by linarith
  have hAM : (3:ℚ)/200 ≤
      calculateAtr atrPeriod (k0 :: rest) * STOP_LOSS_ATR_MULT style := by
    have := mul_le_mul hatr hM (by norm_num) hatr0
    linarith
  have hAM0 : (0:ℚ) ≤
      calculateAtr atrPeriod (k0 :: rest) * STOP_LOSS_ATR_MULT style := by
    linarith
  have hAMR : (3:ℚ)/100 ≤
      calculateAtr atrPeriod (k0 :: rest) * STOP_LOSS_ATR_MULT style *
        TARGET_RR style := by
    have := mul_le_mul hAM hR (by norm_num) hAM0
    linarith
  cases sig with
  | BUY =>
      have hsig : (generate atrPeriod stockCode ⟨.BUY, fs, conf, style⟩
          (k0 :: rest)).signal = Signal.BUY := rfl
      refine ⟨fun _ => ?_,
        fun hcon => Signal.noConfusion (hsig.symm.trans hcon),
        fun hcon => Signal.noConfusion (hsig.symm.trans hcon)⟩
      constructor
      · exact round2_lt_of_cent_le (by linarith)
      · exact round2_lt_of_cent_le (by linarith)
  | SELL =>
      have hsig : (generate atrPeriod stockCode ⟨.SELL, fs, conf, style⟩
          (k0 :: rest)).signal = Signal.SELL := rfl
      refine ⟨fun hcon => Signal.noConfusion (hsig.symm.trans hcon),
        fun _ => ?_,
        fun hcon => Signal.noConfusion (hsig.symm.trans hcon)⟩
      constructor
      · exact round2_lt_of_cent_le (by linarith)
      · exact round2_lt_of_cent_le (by linarith)
  | HOLD =>
      have hsig : (generate atrPeriod stockCode ⟨.HOLD, fs, conf, style⟩
          (k0 :: rest)).signal = Signal.HOLD := rfl
      refine ⟨fun hcon => Signal.noConfusion (hsig.symm.trans hcon),
        fun hcon => Signal.noConfusion (hsig.symm.trans hcon),
        fun _ => ⟨?_, ?_, ?_⟩⟩
      · exact round2_lt_of_cent_le (by linarith)
      · exact round2_lt_of_cent_le (by linarith)
      · have habs1 : |k0.close - (k0.close - calculateAtr atrPeriod
            (k0 :: rest) * STOP_LOSS_ATR_MULT style)| =
            calculateAtr atrPeriod (k0 :: rest) *
              STOP_LOSS_ATR_MULT style := by
          rw [show k0.close - (k0.close - calculateAtr atrPeriod
            (k0 :: rest) * STOP_LOSS_ATR_MULT style) =
            calculateAtr atrPeriod (k0 :: rest) *
              STOP_LOSS_ATR_MULT style from by ring]
          exact abs_of_pos (by linarith)
        have habs2 : |k0.close + calculateAtr atrPeriod (k0 :: rest) *
            STOP_LOSS_ATR_MULT style - k0.close| =
            calculateAtr atrPeriod (k0 :: rest) *
              STOP_LOSS_ATR_MULT style := by
          rw [show k0.close + calculateAtr atrPeriod (k0 :: rest) *
            STOP_LOSS_ATR_MULT style - k0.close =
            calculateAtr atrPeriod (k0 :: rest) *
              STOP_LOSS_ATR_MULT style from by ring]
          exact abs_of_pos (by linarith)
        show (if |k0.close - (k0.close - calculateAtr atrPeriod (k0 :: rest) *
            STOP_LOSS_ATR_MULT style)| > 0 then
            round2 (|k0.close + calculateAtr atrPeriod (k0 :: rest) *
              STOP_LOSS_ATR_MULT style - k0.close| /
              |k0.close - (k0.close - calculateAtr atrPeriod (k0 :: rest) *
                STOP_LOSS_ATR_MULT style)|)
          else 0) = 1
        rw [habs1, habs2, if_pos (by linarith),
          div_self (by linarith : calculateAtr atrPeriod (k0 :: rest) *
            STOP_LOSS_ATR_MULT style ≠ 0)]
        norm_num [round2]

/-- Witness for C5 at a concrete two-bar BUY input with ATR 1. -/
theorem generate_price_ordering_witness :
    (generate 14 "000001" ⟨.BUY, 80, 9/10, .SWING⟩
      [⟨2, 11, 10, 21/2⟩, ⟨1, 53/5, 10, 51/5⟩]).stopLoss <
      (generate 14 "000001" ⟨.BUY, 80, 9/10, .SWING⟩
        [⟨2, 11, 10, 21/2⟩, ⟨1, 53/5, 10, 51/5⟩]).entryPrice
    ∧ (generate 14 "000001" ⟨.BUY, 80, 9/10, .SWING⟩
        [⟨2, 11, 10, 21/2⟩, ⟨1, 53/5, 10, 51/5⟩]).entryPrice <
      (generate 14 "000001" ⟨.BUY, 80, 9/10, .SWING⟩
        [⟨2, 11, 10, 21/2⟩, ⟨1, 53/5, 10, 51/5⟩]).takeProfit := by
  have h := generate_price_ordering 14 "000001" ⟨.BUY, 80, 9/10, .SWING⟩
    [⟨2, 11, 10, 21/2⟩, ⟨1, 53/5, 10, 51/5⟩] (by simp)
    (by norm_num [calculateAtr, trueRanges, lastSlice])
  exact h.1 rfl

/-- C9 (evaluating the lookback-window selection at an input with 121
bars): `TechnicalAnalyzer.analyze` fetches `order_by("date")[:120]`,
keeping the 120 OLDEST bars — the latest-dated bar (day 120) is
excluded and the oldest (day 0) included — whereas the most-recent
selection used by `MoneyFlowAnalyzer` and the other analyzers
(`order_by("-date")[:n]`) keeps the latest-dated bar and drops the
oldest. -/
theorem technicalFetch_keeps_oldest_bars :
    c9TestBars.length = 121
    ∧ (⟨120, 10, 9, 10⟩ : Kline) ∈ c9TestBars
    ∧ (⟨120, 10, 9, 10⟩ : Kline) ∉ technicalFetch 120 c9TestBars
    ∧ (⟨0, 10, 9, 10⟩ : Kline) ∈ technicalFetch 120 c9TestBars
    ∧ (⟨120, 10, 9, 10⟩ : Kline) ∈ mostRecentFetch Kline.date 120 c9TestBars
    ∧ (⟨0, 10, 9, 10⟩ : Kline) ∉
        mostRecentFetch Kline.date 120 c9TestBars := by
  refine ⟨rfl, ?_, ?_, ?_, ?_, ?_⟩ <;> decide

end Cerisier
